import Mathlib

/-!
Verification development for the DBM Alyante CRM migration module
(`dbm/wizard/wizard.py`, `dbm/models/project.py`).

The Python import wizard is shallowly embedded: the host database (Odoo ORM)
is a `Env` value holding the record lists the wizard touches, `search` with
`limit=1` is `List.find?` in record order, record `create` appends with a
fresh id, and record `write` applies the optional fields of a prepared data
dictionary.  Python dictionaries produced by the `_prepare_*` helpers have a
fixed key set per entity kind, so each is embedded as a structure of
`Option` fields (`none` = key absent).  Row-level exceptions are `Except`.

Python library calls that are not repository code are parameters:
`decode` stands for `bytes.decode` for a given codec, `strptime` for
`datetime.strptime` on a given format string, and the raw-SQL hooks stand
for the database's reaction to the privileged `UPDATE` statements.
-/

namespace DBM

/-! ## Python string primitives used by the wizard

All string operations are implemented by structural recursion on the
character list, so that every definition evaluates inside the kernel. -/

/-- Does the first list start with the second? -/
def seqStartsWith : List Char → List Char → Bool
  | _, [] => true
  | [], _ :: _ => false
  | a :: as, b :: bs => a == b && seqStartsWith as bs

/-- Does `needle` occur as a contiguous run inside `hay`? -/
def seqContains (needle : List Char) : List Char → Bool
  | [] => needle.isEmpty
  | c :: rest => seqStartsWith (c :: rest) needle || seqContains needle rest

/-- Python `needle in hay` (substring occurrence). -/
def strOccurs (hay needle : String) : Bool :=
  seqContains needle.data hay.data

/-- Split a character list at every occurrence of `sep`.  Always yields at
least one (possibly empty) piece, like Python `str.split(sep)`. -/
def splitChars (sep : Char) : List Char → List (List Char)
  | [] => [[]]
  | c :: rest =>
      let r := splitChars sep rest
      if c == sep then [] :: r
      else
        match r with
        | h :: t => (c :: h) :: t
        | [] => [[c]]

/-- Python `s.split(sep)` for a one-character separator. -/
def splitStr (sep : Char) (s : String) : List String :=
  (splitChars sep s.data).map String.mk

/-- Interleave `sep` between the pieces. -/
def joinSep (sep : List Char) : List (List Char) → List Char
  | [] => []
  | [x] => x
  | x :: xs => x ++ sep ++ joinSep sep xs

/-- Python `sep.join(parts)`. -/
def strIntercalate (sep : String) (parts : List String) : String :=
  String.mk (joinSep sep.data (parts.map String.data))

/-- ASCII whitespace stripped by Python `str.strip()`. -/
def isPySpace (c : Char) : Bool :=
  c == ' ' || c == '\t' || c == '\n' || c == '\r'

/-- Python `str.strip()` (no arguments): trim surrounding whitespace. -/
def pyStrip (s : String) : String :=
  String.mk (((s.data.dropWhile isPySpace).reverse.dropWhile isPySpace).reverse)

/-- Python `s.replace(c, '')` for a one-character pattern. -/
def removeChar (c : Char) (s : String) : String :=
  String.mk (s.data.filter (fun x => x != c))

/-- ASCII lower-casing, as `str.lower()` on the values at hand. -/
def lowerStr (s : String) : String :=
  String.mk (s.data.map Char.toLower)

/-- ASCII upper-casing, as `str.upper()` on the values at hand. -/
def upperStr (s : String) : String :=
  String.mk (s.data.map Char.toUpper)

/-- Python `str.isdigit()` restricted to ASCII digits: non-empty and all digits. -/
def pyIsdigit (s : String) : Bool :=
  s.length > 0 && s.data.all Char.isDigit

/-- Python `str.isalnum()` restricted to ASCII: non-empty and all alphanumeric. -/
def pyIsalnum (s : String) : Bool :=
  s.length > 0 && s.data.all Char.isAlphanum

/-- Odoo `('field', 'ilike', v)`: case-insensitive containment of `v`. -/
def ilikeMatch (hay needle : String) : Bool :=
  strOccurs (lowerStr hay) (lowerStr needle)

/-- Phone cleanup from `_prepare_person_data` (wizard.py:542):
`value.replace(' ', '').replace('-', '').replace('/', '').replace('(', '').replace(')', '')`. -/
def phoneClean (v : String) : String :=
  removeChar ')' (removeChar '(' (removeChar '/' (removeChar '-' (removeChar ' ' v))))

/-- VAT normalization (wizard.py:1333 and wizard.py:588):
`vat.replace(' ', '').replace('.', '').replace('-', '')`. -/
def normalizeVat (v : String) : String :=
  removeChar '-' (removeChar '.' (removeChar ' ' v))

/-- The VAT acceptance test (wizard.py:1334): the normalized value must be
alphanumeric and at least 8 characters, else the field is dropped. -/
def vatAccepted (v : String) : Bool :=
  let n := normalizeVat v
  pyIsalnum n && n.length ≥ 8

/-- Character class `[a-zA-Z0-9._%+-]` of the e-mail regex local part. -/
def emailLocalChar (c : Char) : Bool :=
  c.isAlphanum || c == '.' || c == '_' || c == '%' || c == '+' || c == '-'

/-- Character class `[a-zA-Z0-9.-]` of the e-mail regex domain part. -/
def emailDomainChar (c : Char) : Bool :=
  c.isAlphanum || c == '.' || c == '-'

/-- Membership in the language of the wizard's e-mail regex
`^[a-zA-Z0-9._%+-]+@[a-zA-Z0-9.-]+\.[a-zA-Z]{2,}$` (wizard.py:1325).
A member has exactly one `@`; the trailing `[a-zA-Z]{2,}` cannot contain a
dot, so the mandatory literal dot is the last dot of the domain. -/
def emailValid (s : String) : Bool :=
  match splitStr '@' s with
  | [lpart, domain] =>
      lpart.length > 0 && lpart.data.all emailLocalChar &&
      (let parts := splitStr '.' domain
       let tld := parts.getLastD ""
       let base := strIntercalate "." parts.dropLast
       parts.length ≥ 2 && base.length > 0 && base.data.all emailDomainChar &&
       tld.length ≥ 2 && tld.data.all Char.isAlpha)
  | _ => false

/-! ## Records and database state -/

/-- `res.country`. -/
structure Country where
  id : Nat
  code : String
  deriving Repr, DecidableEq

/-- `res.country.state`. -/
structure CState where
  id : Nat
  code : String
  country_id : Nat
  deriving Repr, DecidableEq

/-- `res.partner`, restricted to the columns the wizard reads or writes. -/
structure Partner where
  id : Nat
  ref : Option String := none
  name : String := ""
  street : Option String := none
  zip : Option String := none
  city : Option String := none
  state_id : Option Nat := none
  country_id : Option Nat := none
  vat : Option String := none
  l10n_it_codice_fiscale : Option String := none
  phone : Option String := none
  mobile : Option String := none
  email : Option String := none
  website : Option String := none
  comment : Option String := none
  is_company : Bool := false
  company_type : String := ""
  parent_id : Option Nat := none
  deriving Repr, DecidableEq

/-- `project.project.stage` (also reused for other name-keyed records). -/
structure Stage where
  id : Nat
  name : String
  deriving Repr, DecidableEq

/-- `project.project`, restricted to the columns the wizard touches. -/
structure Project where
  id : Nat
  name : String := ""
  code : Option String := none
  partner_id : Option Nat := none
  stage_id : Option Nat := none
  description : Option String := none
  type_dbm : Option String := none
  cig : Option String := none
  cup : Option String := none
  date : Option String := none
  date_start : Option String := none
  allow_billable : Bool := false
  user_id : Option Nat := none
  deriving Repr, DecidableEq

/-- `product.product`, restricted to the columns the wizard touches. -/
structure Product where
  id : Nat
  name : String
  default_code : String
  deriving Repr, DecidableEq

/-- `stock.lot`, restricted to the columns the wizard touches. -/
structure StockLot where
  id : Nat
  name : String := ""
  product_id : Nat := 0
  ref : Option String := none
  manufacturer_lot : Option String := none
  customer_lot : Option String := none
  rental_company_id : Option Nat := none
  testing_status : Option String := none
  note : Option String := none
  labor_warranty : Option String := none
  parts_warranty : Option String := none
  onsite_warranty : Option String := none
  deriving Repr, DecidableEq

/-- `project.task`, restricted to the columns `_create_or_update_activity` touches. -/
structure Task where
  id : Nat
  name : String := ""
  project_id : Option Nat := none
  user_ids : List Nat := []
  deriving Repr, DecidableEq

/-- The database state seen by one import run. -/
structure Env where
  countries : List Country := []
  states : List CState := []
  partners : List Partner := []
  projects : List Project := []
  stages : List Stage := []
  products : List Product := []
  lots : List StockLot := []
  tasks : List Task := []
  nextId : Nat := 1
  now : Nat := 0
  deriving Repr, DecidableEq

/-! ## CSV rows -/

/-- A CSV row as produced by `csv.DictReader`: column name to raw cell. -/
abbrev Row := List (String × String)

/-- Python `row[k]` combined with `k in row`. -/
def rowGet (row : Row) (k : String) : Option String :=
  (row.find? (fun p => p.1 == k)).map (·.2)

/-- The guard `csv_field in row and row[csv_field].strip()` used before every
field assignment: the stripped value when the column is present and
non-blank, `none` otherwise. -/
def rowVal (row : Row) (k : String) : Option String :=
  match rowGet row k with
  | some v => if pyStrip v == "" then none else some (pyStrip v)
  | none => none

/-! ## Partner row preparation (`_prepare_partner_data`, wizard.py:1237-1362) -/

/-- The dictionary built by `_prepare_partner_data` / consumed by
`_create_or_update_partner`; `none` means the key is absent. -/
structure PartnerData where
  ref : Option String := none
  name : Option String := none
  street : Option String := none
  zip : Option String := none
  city : Option String := none
  state_id : Option Nat := none
  country_id : Option Nat := none
  vat : Option String := none
  l10n_it_codice_fiscale : Option String := none
  phone : Option String := none
  mobile : Option String := none
  email : Option String := none
  website : Option String := none
  comment : Option String := none
  is_company : Option Bool := none
  company_type : Option String := none
  deriving Repr, DecidableEq

/-- `_prepare_partner_data`.  Field mapping: `Codice→ref`, `Nome Completo→name`,
`Indirizzo→street`, `CAP→zip`, `Città→city`, `Prov.→state_id`,
`NAZIONE→country_id`, `Partita IVA→vat`, `Codice fiscale→l10n_it_codice_fiscale`,
`Num.tel.1→phone`, `Cell.→mobile`, `E-mail→email`, `Internet→website`,
`Num.tel.2→comment`, `Fax→comment`.  The only `raise` is the missing-`Codice`
validation error. -/
def preparePartnerData (env : Env) (row : Row) : Except String PartnerData :=
  -- required-field validation (wizard.py:1312-1320); preparation is pure, so
  -- hoisting the check above the field computations does not change the result
  match rowVal row "Codice" with
  | none => .error "Codice is required"
  | some r =>
    if pyStrip r == "" then .error "Codice is required"
    else
      -- first pass (wizard.py:1244-1264): everything except state_id, vat,
      -- phone; country resolved from NAZIONE, zip format-checked, comment
      -- taken from Num.tel.2 then overwritten by Fax (same dict key)
      let country1 : Option Nat :=
        match rowVal row "NAZIONE" with
        | some v => (env.countries.find? (fun c => c.code == v)).map (fun c => c.id)
        | none => none
      let zip1 : Option String :=
        match rowVal row "CAP" with
        | some v => if pyIsdigit v && v.length == 5 then some v else none
        | none => none
      let comment1 : Option String :=
        match rowVal row "Fax" with
        | some v => some v
        | none => rowVal row "Num.tel.2"
      -- second pass (wizard.py:1266-1288): province lookup filtered by the
      -- country resolved so far (the NAZIONE one)
      let state1 : Option Nat :=
        match rowVal row "Prov." with
        | some v =>
            match country1 with
            | some cid =>
                (env.states.find? (fun s => s.code == v && s.country_id == cid)).map
                  (fun s => s.id)
            | none => (env.states.find? (fun s => s.code == v)).map (fun s => s.id)
        | none => none
      -- third pass (wizard.py:1290-1299): vat and phone raw values
      let vat1 := rowVal row "Partita IVA"
      let phone1 := rowVal row "Num.tel.1"
      -- name default (wizard.py:1302-1311)
      let name1 : Option String :=
        match rowVal row "Nome Completo" with
        | some n => some n
        | none => some ((rowVal row "Codice").getD "N/A")
      -- e-mail validation (wizard.py:1322-1329): drop when invalid
      let email1 : Option String :=
        match rowVal row "E-mail" with
        | some e => if emailValid e then some e else none
        | none => none
      -- VAT validation (wizard.py:1331-1337): drop when invalid
      let vat2 : Option String :=
        match vat1 with
        | some v => if vatAccepted v then some v else none
        | none => none
      -- country forced to Italy when an IT country exists (wizard.py:1344-1347)
      let country2 : Option Nat :=
        match env.countries.find? (fun c => c.code == "IT") with
        | some it => some it.id
        | none => country1
      -- Num.tel.2 / Fax note (wizard.py:1349-1359) overwrites the comment
      let notesParts : List String :=
        (match rowVal row "Num.tel.2" with
         | some v => ["Num.tel.2: " ++ v]
         | none => []) ++
        (match rowVal row "Fax" with
         | some v => ["Fax: " ++ v]
         | none => [])
      let comment2 : Option String :=
        if notesParts.isEmpty then comment1
        else some (strIntercalate ", " notesParts)
      .ok {
        ref := some r
        name := name1
        street := rowVal row "Indirizzo"
        zip := zip1
        city := rowVal row "Città"
        state_id := state1
        country_id := country2
        vat := vat2
        l10n_it_codice_fiscale := rowVal row "Codice fiscale"
        phone := phone1
        mobile := rowVal row "Cell."
        email := email1
        website := rowVal row "Internet"
        comment := comment2
        is_company := some true
        company_type := some "company" }

/-! ## Partner upsert (`_create_or_update_partner`, wizard.py:1364-1416,
and `_update_partner_vat_cf_sql`, wizard.py:1418-1476) -/

/-- The two outcomes reported by every create-or-update helper. -/
inductive Action where
  | created
  | updated
  deriving Repr, DecidableEq

/-- Behaviour of the host outside this repository: whether the raw SQL
`UPDATE` of vat / codice fiscale raises (and with which message), and whether
`existing_partner.write` inside its try/except succeeds. -/
structure Hooks where
  sqlVat : String → Option String := fun _ => none
  sqlCf : String → Bool := fun _ => true
  partnerWriteOk : Bool := true

/-- Keep `old` unless the dictionary carries a value. -/
def ov {α : Type} (new old : Option α) : Option α :=
  match new with
  | some v => some v
  | none => old

/-- `record.write(partner_data)`: assign exactly the keys present. -/
def applyPartnerData (p : Partner) (d : PartnerData) : Partner :=
  { p with
    ref := ov d.ref p.ref
    name := d.name.getD p.name
    street := ov d.street p.street
    zip := ov d.zip p.zip
    city := ov d.city p.city
    state_id := ov d.state_id p.state_id
    country_id := ov d.country_id p.country_id
    vat := ov d.vat p.vat
    l10n_it_codice_fiscale := ov d.l10n_it_codice_fiscale p.l10n_it_codice_fiscale
    phone := ov d.phone p.phone
    mobile := ov d.mobile p.mobile
    email := ov d.email p.email
    website := ov d.website p.website
    comment := ov d.comment p.comment
    is_company := d.is_company.getD p.is_company
    company_type := d.company_type.getD p.company_type }

/-- `res.partner.create(partner_data)` with a fresh id. -/
def partnerFromData (id : Nat) (d : PartnerData) : Partner :=
  applyPartnerData { id := id } d

/-- SQL `CASE WHEN comment IS NULL OR comment = '' THEN msg ELSE comment || msg END`. -/
def appendComment (old : Option String) (msg : String) : Option String :=
  match old with
  | none => some msg
  | some s => if s == "" then some msg else some (s ++ msg)

/-- Apply `f` to the partner with id `pid`. -/
def mapPartner (env : Env) (pid : Nat) (f : Partner → Partner) : Env :=
  { env with partners := env.partners.map (fun p => if p.id == pid then f p else p) }

/-- `_update_partner_vat_cf_sql`: write vat then codice fiscale through raw
SQL; on a raised `UPDATE`, append an Italian note to the `comment` column
instead.  A falsy (`none` or empty) value skips its branch entirely. -/
def updatePartnerVatCfSql (hooks : Hooks) (env : Env) (pid : Nat)
    (vatValue cfValue : Option String) : Env :=
  let env1 :=
    match vatValue with
    | some v =>
        if v == "" then env
        else
          match hooks.sqlVat v with
          | none => mapPartner env pid (fun p => { p with vat := some v })
          | some err =>
              mapPartner env pid (fun p =>
                { p with comment :=
                    appendComment p.comment ("Partita IVA non valida: " ++ err ++ "\n") })
    | none => env
  match cfValue with
  | some c =>
      if c == "" then env1
      else if hooks.sqlCf c then
        mapPartner env1 pid (fun p => { p with l10n_it_codice_fiscale := some c })
      else
        mapPartner env1 pid (fun p =>
          { p with comment :=
              appendComment p.comment ("Codice Fiscale non valido: " ++ c ++ "\n") })
  | none => env1

/-- `_create_or_update_partner`: pop vat and codice fiscale, search by `ref`
when present (else by `name`), write the found record or create a new one;
the raw-SQL vat/cf path runs only in the create branch (wizard.py:1399). -/
def createOrUpdatePartner (hooks : Hooks) (env : Env) (data : PartnerData) :
    Env × (Action × Nat) :=
  let vatValue := data.vat
  let cfValue := data.l10n_it_codice_fiscale
  let d := { data with vat := none, l10n_it_codice_fiscale := none }
  let found : Option Partner :=
    match d.ref with
    | some r => env.partners.find? (fun p => p.ref == some r)
    | none => env.partners.find? (fun p => p.name == d.name.getD "")
  match found with
  | some p =>
      let p' := if hooks.partnerWriteOk then applyPartnerData p d else p
      let env' :=
        { env with partners := env.partners.map (fun q => if q.id == p.id then p' else q) }
      (env', (.updated, p.id))
  | none =>
      let newP := partnerFromData env.nextId d
      let env1 := { env with partners := env.partners ++ [newP], nextId := env.nextId + 1 }
      (updatePartnerVatCfSql hooks env1 newP.id vatValue cfValue, (.created, newP.id))

/-! ## File decoding (`_import_partners`, wizard.py:186-207) -/

/-- The uploaded blob after `base64.b64decode`. -/
abbrev Bytes := List Nat

/-- The fixed candidate list of the auto-detect branch (wizard.py:188). -/
def encodingsToTry : List String :=
  ["utf-8", "utf-8-sig", "cp1252", "iso-8859-1", "latin1"]

/-- The auto-detect loop (wizard.py:191-197): first candidate whose decode
does not raise `UnicodeDecodeError`; `decode` stands for `bytes.decode`. -/
def tryEncodings (decode : String → Bytes → Option String) (blob : Bytes) :
    List String → Option String
  | [] => none
  | e :: rest =>
      match decode e blob with
      | some s => some s
      | none => tryEncodings decode blob rest

/-- Encoding handling (wizard.py:186-207): auto-detect over the candidate
list with a `UserError` when none succeeds, or the user-selected codec. -/
def decodeFileContent (decode : String → Bytes → Option String)
    (enc : String) (blob : Bytes) : Except String String :=
  if enc == "auto" then
    match tryEncodings decode blob encodingsToTry with
    | some s => .ok s
    | none => .error "Unable to decode the file. Please try selecting a specific encoding or save the file with UTF-8 encoding."
  else
    match decode enc blob with
    | some s => .ok s
    | none => .error ("Unable to decode the file using " ++ enc ++ " encoding.")

/-! ## CSV reading (`csv.DictReader`, wizard.py:209-211) -/

/-- Drop a trailing carriage return, as the csv module's universal newline
handling does. -/
def stripCR (l : String) : String :=
  match l.data.reverse with
  | '\r' :: rest => String.mk rest.reverse
  | _ => l

/-- The lines the csv reader yields: newline-split, blank lines skipped. -/
def csvLines (s : String) : List String :=
  ((splitStr '\n' s).map stripCR).filter (fun l => l != "")

/-- One line split at the delimiter (field quoting is not modelled; no claim
depends on it). -/
def splitLine (d : Char) (l : String) : List String :=
  splitStr d l

/-- `csv.DictReader`: the first line is always consumed as the header, every
later line becomes a dict keyed by the header fields. -/
def dictReaderRows (d : Char) (content : String) : List Row :=
  match csvLines content with
  | [] => []
  | h :: rest => rest.map (fun l => (splitLine d h).zip (splitLine d l))

/-! ## The partner import loop (`_import_partners`, wizard.py:166-334) -/

/-- The wizard's transient configuration fields used by the import. -/
structure WizardConfig where
  delimiter : String := "comma"
  has_header : Bool := true
  file_encoding : String := "auto"
  deriving Repr, DecidableEq

/-- `delimiter_map.get(self.delimiter, ',')` (wizard.py:178-183). -/
def delimiterChar (sel : String) : Char :=
  if sel == "comma" then ','
  else if sel == "semicolon" then ';'
  else if sel == "tab" then '\t'
  else ','

/-- Aggregated per-run results (wizard.py:232-235). -/
structure ImportReport where
  env : Env
  created : Nat := 0
  updated : Nat := 0
  errors : Nat := 0
  errorMsgs : List String := []
  deriving Repr, DecidableEq

/-- The per-row error line (wizard.py:255-257). -/
def mkPartnerErrMsg (n : Nat) (row : Row) (e : String) : String :=
  "Row " ++ toString n ++ " - " ++ (rowGet row "Nome Completo").getD "N/A" ++
    " (Codice: " ++ (rowGet row "Codice").getD "N/A" ++ "): " ++ e

/-- The body of one iteration of the partner row loop (wizard.py:240-251):
prepare, then create-or-update (the prepared dict is always truthy). -/
def processPartnerRow (hooks : Hooks) (env : Env) (row : Row) :
    Except String (Env × Action) :=
  match preparePartnerData env row with
  | .error e => .error e
  | .ok data =>
      let r := createOrUpdatePartner hooks env data
      .ok (r.1, r.2.1)

/-- The partner row loop from row number `n` on: a caught row error counts
and records the message, then the loop continues on an unchanged database. -/
def partnerLoop (hooks : Hooks) : Nat → Env → List Row → ImportReport
  | _, env, [] => { env := env }
  | n, env, row :: rest =>
      match processPartnerRow hooks env row with
      | .ok (env', act) =>
          let rep := partnerLoop hooks (n + 1) env' rest
          match act with
          | .created => { rep with created := rep.created + 1 }
          | .updated => { rep with updated := rep.updated + 1 }
      | .error e =>
          let rep := partnerLoop hooks (n + 1) env rest
          { rep with errors := rep.errors + 1,
                     errorMsgs := mkPartnerErrMsg n row e :: rep.errorMsgs }

/-- `_import_partners`: decode, build the reader, and run the row loop with
`enumerate(reader, start=2)`.  The `has_header` flag is declared on the
wizard (wizard.py:33-37) but never read here. -/
def importPartners (cfg : WizardConfig) (hooks : Hooks)
    (decode : String → Bytes → Option String) (env : Env) (blob : Bytes) :
    Except String ImportReport :=
  match decodeFileContent decode cfg.file_encoding blob with
  | .error e => .error ("Error processing file: " ++ e)
  | .ok content =>
      .ok (partnerLoop hooks 2 env (dictReaderRows (delimiterChar cfg.delimiter) content))

/-! ## Person row preparation (`_prepare_person_data`, wizard.py:497-595) -/

/-- The dictionary built by `_prepare_person_data`. -/
structure PersonData where
  parent_id : Option Nat := none
  parent_company_name : Option String := none
  name : Option String := none
  email : Option String := none
  mobile : Option String := none
  phone : Option String := none
  comment : Option String := none
  ref : Option String := none
  vat : Option String := none
  is_company : Option Bool := none
  company_type : Option String := none
  deriving Repr, DecidableEq

/-- `_prepare_person_data`.  Field mapping: `Azienda→parent_company`,
`Referenti→name`, `E-mail→email`, `Cellulare 1→mobile`, `Telefono 1→phone`,
`Note→comment`, `Codice→ref`, `Partita IVA→vat`.  A missing parent company is
auto-created (so the environment can change); phone values are cleaned;
invalid e-mail and VAT values are dropped; only a missing name raises. -/
def preparePersonData (env : Env) (row : Row) : Except String (Env × PersonData) :=
  let parentStep : Env × Option Nat × Option String :=
    match rowVal row "Azienda" with
    | some v =>
        match env.partners.find? (fun p => ilikeMatch p.name v && p.is_company) with
        | some c => (env, some c.id, some c.name)
        | none =>
            let newC : Partner :=
              { id := env.nextId, name := v, is_company := true, company_type := "company" }
            ({ env with partners := env.partners ++ [newC], nextId := env.nextId + 1 },
             some newC.id, some newC.name)
    | none => (env, none, none)
  let env1 := parentStep.1
  let email1 : Option String :=
    match rowVal row "E-mail" with
    | some e => if emailValid e then some e else none
    | none => none
  let mobile1 := (rowVal row "Cellulare 1").map phoneClean
  let phone1 := (rowVal row "Telefono 1").map phoneClean
  match rowVal row "Referenti" with
  | none => .error "Person name (Referenti) is required"
  | some nm =>
      if pyStrip nm == "" then .error "Person name (Referenti) is required"
      else
        let comment1 : Option String :=
          match rowVal row "Note" with
          | some c => some c
          | none => some ""
        let vat1 : Option String :=
          match rowVal row "Partita IVA" with
          | some v => if vatAccepted v then some v else none
          | none => none
        .ok (env1,
          { parent_id := parentStep.2.1
            parent_company_name := parentStep.2.2
            name := some nm
            email := email1
            mobile := mobile1
            phone := phone1
            comment := comment1
            ref := rowVal row "Codice"
            vat := vat1
            is_company := some false
            company_type := some "person" })

/-! ## Date parsing helpers (wizard.py:1554-1584, 1064-1090) -/

/-- Stand-in for the Python `datetime` library: `strptime fmt v` is
`datetime.strptime(v, fmt)` (`none` = `ValueError`), `strftimeFull` renders a
parsed value with `'%Y-%m-%d %H:%M:%S'`. -/
structure PyLib where
  strptime : String → String → Option Nat := fun _ _ => none
  strftimeFull : Nat → String := fun _ => ""

/-- The eight formats tried for project dates (wizard.py:1558-1567). -/
def dateFormats8 : List String :=
  ["%d/%m/%Y %H:%M", "%d/%m/%Y %H:%M:%S", "%d/%m/%Y", "%Y-%m-%d %H:%M:%S",
   "%Y-%m-%d %H:%M", "%Y-%m-%d", "%d-%m-%Y %H:%M", "%d-%m-%Y"]

/-- The six formats tried for warranty dates (wizard.py:1067-1074). -/
def dateFormats6 : List String :=
  ["%d/%m/%Y %H:%M", "%d/%m/%Y %H:%M:%S", "%d/%m/%Y", "%Y-%m-%d %H:%M:%S",
   "%Y-%m-%d %H:%M", "%Y-%m-%d"]

/-- First format that parses, as in the for/try loops. -/
def parseFirst (lib : PyLib) (v : String) : List String → Option Nat
  | [] => none
  | f :: rest =>
      match lib.strptime f v with
      | some t => some t
      | none => parseFirst lib v rest

/-- Parse with a format list and re-render, or drop the value. -/
def parseDateField (lib : PyLib) (formats : List String) (v : String) : Option String :=
  (parseFirst lib v formats).map lib.strftimeFull

/-! ## Project row preparation (`_prepare_project_data`, wizard.py:1492-1616) -/

/-- The dictionary built by `_prepare_project_data`. -/
structure ProjectData where
  name : Option String := none
  partner_id : Option Nat := none
  code : Option String := none
  description : Option String := none
  stage_id : Option Nat := none
  type_dbm : Option String := none
  cig : Option String := none
  cup : Option String := none
  date : Option String := none
  date_start : Option String := none
  allow_billable : Option Bool := none
  deriving Repr, DecidableEq

/-- The standard stage-name map of `_prepare_project_data` (wizard.py:1517-1533):
unknown labels fall through to the stripped original value. -/
def standardStageName (v : String) : String :=
  let key := upperStr (pyStrip v)
  if key == "DA FARE" then "Da fare"
  else if key == "TO DO" then "Da fare"
  else if key == "IN CORSO" then "In corso"
  else if key == "IN PROGRESS" then "In corso"
  else if key == "COMPLETATO" then "Completato"
  else if key == "COMPLETED" then "Completato"
  else if key == "CHIUSO" then "Completato"
  else if key == "ANNULLATO" then "Annullato"
  else if key == "CANCELLED" then "Annullato"
  else if key == "CANCELED" then "Annullato"
  else pyStrip v

/-- Look up a `project.project.stage` by name, creating it when absent
(wizard.py:1536-1541). -/
def getOrCreateStage (env : Env) (n : String) : Env × Nat :=
  match env.stages.find? (fun s => s.name == n) with
  | some s => (env, s.id)
  | none =>
      ({ env with stages := env.stages ++ [{ id := env.nextId, name := n }],
                  nextId := env.nextId + 1 }, env.nextId)

/-- Odoo datetime re-validation of a prepared date string (wizard.py:1600-1609):
keep it only when `'%Y-%m-%d %H:%M:%S'` re-parses it. -/
def validateDateField (lib : PyLib) (v : Option String) : Option String :=
  match v with
  | some s => if (lib.strptime "%Y-%m-%d %H:%M:%S" s).isSome then some s else none
  | none => none

/-- `_prepare_project_data`.  Field mapping: `Commessa→name`, `Cliente→partner_id`,
`Codice→code`, `Descrizione→description`, `Stato→stage_id`, `Tipologia→type_dbm`,
`CIG→cig`, `CUP→cup`, `Data fine effettiva→date`,
`Data inizio pianificata→date_start` (`Priorità` is commented out in the
source).  An unresolved `Cliente` partner only logs a warning and leaves the
link unset; a missing `Commessa` raises; `type_dbm` defaults to GENERICO. -/
def prepareProjectData (lib : PyLib) (env : Env) (row : Row) :
    Except String (Env × ProjectData) :=
  let partner1 : Option Nat :=
    match rowVal row "Cliente" with
    | some v => (env.partners.find? (fun p => ilikeMatch p.name v)).map (·.id)
    | none => none
  let stageStep : Env × Option Nat :=
    match rowVal row "Stato" with
    | some v =>
        let r := getOrCreateStage env (standardStageName v)
        (r.1, some r.2)
    | none => (env, none)
  let env1 := stageStep.1
  let date1 : Option String :=
    match rowVal row "Data fine effettiva" with
    | some v => parseDateField lib dateFormats8 v
    | none => none
  let dateStart1 : Option String :=
    match rowVal row "Data inizio pianificata" with
    | some v => parseDateField lib dateFormats8 v
    | none => none
  match rowVal row "Commessa" with
  | none => .error "Project name (Commessa) is required"
  | some nm =>
      if pyStrip nm == "" then .error "Project name (Commessa) is required"
      else
        let type1 : Option String :=
          match rowVal row "Tipologia" with
          | some v => some v
          | none => some "GENERICO"
        .ok (env1,
          { name := some nm
            partner_id := partner1
            code := rowVal row "Codice"
            description := rowVal row "Descrizione"
            stage_id := stageStep.2
            type_dbm := type1
            cig := rowVal row "CIG"
            cup := rowVal row "CUP"
            date := validateDateField lib date1
            date_start := validateDateField lib dateStart1
            allow_billable := none })

/-! ## Project upsert (`_create_or_update_project`, wizard.py:1618-1673) -/

/-- `record.write(project_data)`: assign exactly the keys present. -/
def applyProjectData (p : Project) (d : ProjectData) : Project :=
  { p with
    name := d.name.getD p.name
    partner_id := ov d.partner_id p.partner_id
    code := ov d.code p.code
    description := ov d.description p.description
    stage_id := ov d.stage_id p.stage_id
    type_dbm := ov d.type_dbm p.type_dbm
    cig := ov d.cig p.cig
    cup := ov d.cup p.cup
    date := ov d.date p.date
    date_start := ov d.date_start p.date_start
    allow_billable := d.allow_billable.getD p.allow_billable }

/-- `_create_or_update_project`: search by `code` when present and truthy,
else by `name`; write or create, then assign the wizard's default user. -/
def createOrUpdateProject (env : Env) (wizardUser : Option Nat) (data : ProjectData) :
    Env × (Action × Nat) :=
  let byCode : Bool :=
    match data.code with
    | some c => c != ""
    | none => false
  let found : Option Project :=
    if byCode then env.projects.find? (fun p => p.code == data.code)
    else env.projects.find? (fun p => p.name == data.name.getD "")
  match found with
  | some p =>
      let p' := { applyProjectData p data with user_id := wizardUser }
      ({ env with projects := env.projects.map (fun q => if q.id == p.id then p' else q) },
       (.updated, p.id))
  | none =>
      let newP := { applyProjectData { id := env.nextId } data with user_id := wizardUser }
      ({ env with projects := env.projects ++ [newP], nextId := env.nextId + 1 },
       (.created, newP.id))

/-! ## Stock lot row preparation (`_prepare_stock_lot_data`, wizard.py:1025-1173) -/

/-- The dictionary built by `_prepare_stock_lot_data`. -/
structure LotData where
  name : Option String := none
  ref : Option String := none
  manufacturer_lot : Option String := none
  customer_lot : Option String := none
  rental_company_id : Option Nat := none
  testing_status : Option String := none
  product_code : Option String := none
  product_name : Option String := none
  note : Option String := none
  labor_warranty : Option String := none
  parts_warranty : Option String := none
  onsite_warranty : Option String := none
  product_id : Option Nat := none
  deriving Repr, DecidableEq

/-- The `Collaudo` mapping (wizard.py:1053-1062), defaulting to `not_tested`. -/
def testingStatusOf (v : String) : String :=
  let key := lowerStr (pyStrip v)
  if key == "collaudato" then "tested"
  else if key == "tested" then "tested"
  else if key == "in attesa" then "pending"
  else if key == "pending" then "pending"
  else if key == "non collaudato" then "not_tested"
  else if key == "not tested" then "not_tested"
  else "not_tested"

/-- `_prepare_stock_lot_data`.  Field mapping: `Matricola Interna→name`,
`Nome Macchina→ref`, `Matricola Produttore→manufacturer_lot`,
`Matricola Cliente→customer_lot`, `Azienda Locazione Macchina→rental_company_id`,
`Collaudo→testing_status`, `Codice prodotto→product_code`,
`Nome prodotto→product_name`, `Note→note`, `Garanzia *→* warranties`.
An unresolved rental company only logs a warning; the product is looked up by
code then name and auto-created otherwise (with an `IMP-<timestamp>` code);
missing name or product raises. -/
def prepareStockLotData (lib : PyLib) (env : Env) (row : Row) :
    Except String (Env × LotData) :=
  let rental1 : Option Nat :=
    match rowVal row "Azienda Locazione Macchina" with
    | some v => (env.partners.find? (fun p => ilikeMatch p.name v)).map (·.id)
    | none => none
  let warranty := fun (col : String) =>
    match rowVal row col with
    | some v => parseDateField lib dateFormats6 v
    | none => (none : Option String)
  let pcode := rowVal row "Codice prodotto"
  let pname := rowVal row "Nome prodotto"
  -- product identification (wizard.py:1107-1145)
  let productStep : Env × Option Nat × Option String :=
    if pcode.isSome || pname.isSome then
      let byCode : Option Product :=
        match pcode with
        | some c => env.products.find? (fun p => p.default_code == c)
        | none => none
      let found : Option Product :=
        match byCode with
        | some p => some p
        | none =>
            match pname with
            | some n => env.products.find? (fun p => ilikeMatch p.name n)
            | none => none
      match found with
      | some p => (env, some p.id, some p.name)
      | none =>
          let newName := (pname.getD (pcode.getD "Prodotto Importato"))
          let newCode := pcode.getD ("IMP-" ++ toString env.now)
          let newP : Product := { id := env.nextId, name := newName, default_code := newCode }
          ({ env with products := env.products ++ [newP], nextId := env.nextId + 1 },
           some newP.id, some newName)
    else (env, none, pname)
  let env1 := productStep.1
  match rowVal row "Matricola Interna" with
  | none => .error "Lot name (Matricola Interna) is required"
  | some nm =>
      if pyStrip nm == "" then .error "Lot name (Matricola Interna) is required"
      else
        match productStep.2.1 with
        | none => .error "Product (Codice prodotto or Nome prodotto) is required"
        | some pid =>
            let note1 : Option String :=
              match rowVal row "Note" with
              | some v => some v
              | none => some ""
            .ok (env1,
              { name := some nm
                ref := rowVal row "Nome Macchina"
                manufacturer_lot := rowVal row "Matricola Produttore"
                customer_lot := rowVal row "Matricola Cliente"
                rental_company_id := rental1
                testing_status := (rowVal row "Collaudo").map testingStatusOf
                product_code := none
                product_name := productStep.2.2
                note := note1
                labor_warranty := warranty "Garanzia manodopera"
                parts_warranty := warranty "Garanzia ricambi"
                onsite_warranty := warranty "Garanzia on site"
                product_id := some pid })

/-! ## Stock lot upsert (`_create_or_update_stock_lot`, wizard.py:1175-1235) -/

/-- `record.write(lot_data)` (the `product_name` helper key is popped first). -/
def applyLotData (l : StockLot) (d : LotData) : StockLot :=
  { l with
    name := d.name.getD l.name
    ref := ov d.ref l.ref
    manufacturer_lot := ov d.manufacturer_lot l.manufacturer_lot
    customer_lot := ov d.customer_lot l.customer_lot
    rental_company_id := ov d.rental_company_id l.rental_company_id
    testing_status := ov d.testing_status l.testing_status
    note := ov d.note l.note
    labor_warranty := ov d.labor_warranty l.labor_warranty
    parts_warranty := ov d.parts_warranty l.parts_warranty
    onsite_warranty := ov d.onsite_warranty l.onsite_warranty
    product_id := d.product_id.getD l.product_id }

/-- `_create_or_update_stock_lot`: search by `(name, product_id)`, write the
found record or create a new one. -/
def createOrUpdateStockLot (env : Env) (data : LotData) : Env × (Action × Nat) :=
  let found : Option StockLot :=
    env.lots.find? (fun l =>
      l.name == data.name.getD "" && l.product_id == data.product_id.getD 0)
  match found with
  | some l =>
      let l' := applyLotData l data
      ({ env with lots := env.lots.map (fun m => if m.id == l.id then l' else m) },
       (.updated, l.id))
  | none =>
      let newL := applyLotData { id := env.nextId } data
      ({ env with lots := env.lots ++ [newL], nextId := env.nextId + 1 },
       (.created, newL.id))

/-! ## Activity upsert (`_create_or_update_activity`, wizard.py:1997-2054) -/

/-- The slice of the activity dictionary the helper reads. -/
structure TaskData where
  name : Option String := none
  project_id : Option Nat := none
  user_ids : Option (List Nat) := none
  deriving Repr, DecidableEq

/-- `_create_or_update_activity`: the natural-key search is disabled in the
source — `existing_activity = False` (wizard.py:2016-2017) with the search
call commented out — so the update branch is dead code and every call
creates a record; the wizard's default user is assigned when the new task
has no assignees. -/
def createOrUpdateActivity (env : Env) (wizardUser : Option Nat) (data : TaskData) :
    Env × (Action × Nat) :=
  let existing : Option Task := none
  match existing with
  | some t =>
      let t' : Task :=
        { t with name := data.name.getD t.name,
                 project_id := ov data.project_id t.project_id,
                 user_ids := data.user_ids.getD t.user_ids }
      ({ env with tasks := env.tasks.map (fun u => if u.id == t.id then t' else u) },
       (.updated, t.id))
  | none =>
      let newT : Task :=
        { id := env.nextId, name := data.name.getD "",
          project_id := data.project_id, user_ids := data.user_ids.getD [] }
      let newT' : Task :=
        match wizardUser with
        | some u => if newT.user_ids.isEmpty then { newT with user_ids := [u] } else newT
        | none => newT
      ({ env with tasks := env.tasks ++ [newT'], nextId := env.nextId + 1 },
       (.created, newT'.id))

/-! ## Activity project-code extraction (`_prepare_activity_data`, wizard.py:1956-1974) -/

/-- The `Commessa` cleanup: when the value contains a dash, split on `-` and
drop the last piece. -/
def extractProjectCode (value : String) : String :=
  if strOccurs value "-" then
    let parts := splitStr '-' value
    if parts.length > 1 then strIntercalate "-" parts.dropLast else value
  else value

/-- The project lookup an activity row performs: search `project.project` by
`code` equal to the stripped cleaned value. -/
def resolveActivityProject (env : Env) (value : String) : Option Nat :=
  let clean := extractProjectCode value
  if clean != "" then
    (env.projects.find? (fun p => p.code == some (pyStrip clean))).map (·.id)
  else none

/-! ## Project code constraints (`models/project.py`) -/

/-- Exactly `NNNNN-NN`. -/
def codeChars : List Char → Bool
  | [a, b, c, d, e, dash, f, g] =>
      a.isDigit && b.isDigit && c.isDigit && d.isDigit && e.isDigit &&
      dash == '-' && f.isDigit && g.isDigit
  | _ => false

/-- Python `re.match(r'^\d{5}-\d{2}$', s)`: the `$` anchor also matches just
before a single trailing newline. -/
def pyRegexCodeMatch (s : String) : Bool :=
  codeChars s.data || (s.data.getLast? == some '\n' && codeChars s.data.dropLast)

/-- `ProjectTask._check_project_code_format` (project.py:90-101): `true` means
the constraint raises no `ValidationError`; falsy values skip the check. -/
def checkProjectCodeFormat (code : Option String) : Bool :=
  match code with
  | none => true
  | some c => if c == "" then true else pyRegexCodeMatch c

/-- `Project._check_project_code_unique` (project.py:39-54): `true` means the
constraint raises no `ValidationError`; falsy codes skip the check. -/
def checkProjectCodeUnique (projects : List Project) (rec : Project) : Bool :=
  match rec.code with
  | none => true
  | some c =>
      if c == "" then true
      else !(projects.any (fun p => p.code == some c && p.id != rec.id))

/-! ## Shared helper lemmas -/

/-- The whole-list failure characterization of the encoding trial loop. -/
theorem tryEncodings_eq_none_iff (decode : String → Bytes → Option String)
    (blob : Bytes) (l : List String) :
    tryEncodings decode blob l = none ↔ ∀ e ∈ l, decode e blob = none := by
  induction l with
  | nil => simp [tryEncodings]
  | cons e rest ih =>
      cases h : decode e blob with
      | none => simp [tryEncodings, h, ih]
      | some s => simp [tryEncodings, h]

/-- The loop returns the decode of the first succeeding candidate. -/
theorem tryEncodings_first (decode : String → Bytes → Option String) (blob : Bytes) :
    ∀ (l : List String) (i : Nat), i < l.length →
      (∀ j, j < i → decode (l.getD j "") blob = none) →
      ∀ s, decode (l.getD i "") blob = some s →
      tryEncodings decode blob l = some s := by
  intro l
  induction l with
  | nil => intro i hi; simp at hi
  | cons e rest ih =>
      intro i hi hprev s hs
      cases i with
      | zero =>
          simp [List.getD] at hs
          simp [tryEncodings, hs]
      | succ k =>
          have he : decode e blob = none := by
            have := hprev 0 (Nat.succ_pos k)
            simpa [List.getD] using this
          have hk : k < rest.length := by simpa using hi
          have hprev' : ∀ j, j < k → decode (rest.getD j "") blob = none := by
            intro j hj
            have := hprev (j + 1) (by omega)
            simpa [List.getD] using this
          have hs' : decode (rest.getD k "") blob = some s := by
            simpa [List.getD] using hs
          simp [tryEncodings, he]
          exact ih k hk hprev' s hs'

/-! ## Claim C6 -/

/-- C6: with encoding set to auto-detect, the decoder tries exactly
`['utf-8', 'utf-8-sig', 'cp1252', 'iso-8859-1', 'latin1']` in order, returns
the decode of the first candidate that succeeds, and reports the hard
decode failure if and only if every candidate fails. -/
theorem auto_decode_first_success_and_failure_iff
    (decode : String → Bytes → Option String) (blob : Bytes) :
    encodingsToTry = ["utf-8", "utf-8-sig", "cp1252", "iso-8859-1", "latin1"]
    ∧ (decodeFileContent decode "auto" blob =
        .error "Unable to decode the file. Please try selecting a specific encoding or save the file with UTF-8 encoding."
       ↔ ∀ e ∈ encodingsToTry, decode e blob = none)
    ∧ (∀ i, i < encodingsToTry.length →
        (∀ j, j < i → decode (encodingsToTry.getD j "") blob = none) →
        ∀ s, decode (encodingsToTry.getD i "") blob = some s →
        decodeFileContent decode "auto" blob = .ok s) := by
  refine ⟨rfl, ?_, ?_⟩
  · constructor
    · intro h
      rw [← tryEncodings_eq_none_iff decode blob encodingsToTry]
      cases ht : tryEncodings decode blob encodingsToTry with
      | none => rfl
      | some s => simp [decodeFileContent, ht] at h
    · intro h
      have := (tryEncodings_eq_none_iff decode blob encodingsToTry).mpr h
      simp [decodeFileContent, this]
  · intro i hi hprev s hs
    have := tryEncodings_first decode blob encodingsToTry i hi hprev s hs
    simp [decodeFileContent, this]

/-- Witness for C6: a concrete decoder failing on the first two candidates
and succeeding on `cp1252` makes the auto-detect branch return that decode,
and an always-failing decoder produces the hard failure. -/
theorem auto_decode_witness :
    (decodeFileContent
        (fun e _ => if e == "cp1252" then some "hello" else none) "auto" [200] =
      .ok "hello")
    ∧ (decodeFileContent (fun _ _ => none) "auto" [200] =
      .error "Unable to decode the file. Please try selecting a specific encoding or save the file with UTF-8 encoding.") := by
  constructor
  · exact (auto_decode_first_success_and_failure_iff
      (fun e _ => if e == "cp1252" then some "hello" else none) [200]).2.2 2
      (by decide)
      (by intro j hj; interval_cases j <;> rfl)
      "hello" rfl
  · exact (auto_decode_first_success_and_failure_iff (fun _ _ => none) [200]).2.1.mpr
      (by intro e _; rfl)

/-! ## Claim C5 -/

/-- C5 counterexample: the empty string assigned as a task project code is
accepted by the format constraint (falsy values skip the check entirely)
although it does not match `^\d{5}-\d{2}$`, so "accepts if and only if it
matches" fails at the empty string. -/
theorem project_code_empty_accepted_counterexample :
    checkProjectCodeFormat (some "") = true
    ∧ pyRegexCodeMatch "" = false
    ∧ codeChars "".data = false := by
  decide

/-- C5 amended: a NON-EMPTY project code passes the format constraint iff it
matches the Python regex `^\d{5}-\d{2}$` (whose `$` also accepts one
trailing newline); `00001-24` is accepted; empty or unset codes skip the
check; and the uniqueness constraint rejects exactly a non-empty code borne
by some other existing project. -/
theorem project_code_constraints_amended :
    (∀ c : String, c ≠ "" →
       (checkProjectCodeFormat (some c) = true ↔ pyRegexCodeMatch c = true))
    ∧ checkProjectCodeFormat (some "00001-24") = true
    ∧ pyRegexCodeMatch "00001-24" = true
    ∧ (∀ (projects : List Project) (rec : Project),
        checkProjectCodeUnique projects rec = false ↔
          ∃ c, rec.code = some c ∧ c ≠ "" ∧
            ∃ p ∈ projects, p.code = some c ∧ p.id ≠ rec.id) := by
  refine ⟨?_, by decide, by decide, ?_⟩
  · intro c hc
    simp [checkProjectCodeFormat, hc]
  · intro projects rec
    cases hc : rec.code with
    | none => simp [checkProjectCodeUnique, hc]
    | some c =>
        by_cases h0 : c = ""
        · subst h0
          simp [checkProjectCodeUnique, hc]
        · simp [checkProjectCodeUnique, hc, h0, List.any_eq_true]

/-- Witness for C5: the amended equivalences applied at `0001-24` (rejected:
four leading digits) and at a concrete duplicated code. -/
theorem project_code_constraints_witness :
    (checkProjectCodeFormat (some "0001-24") = true ↔ pyRegexCodeMatch "0001-24" = true)
    ∧ (checkProjectCodeUnique [{ id := 1, code := some "00001-24" }]
          { id := 2, code := some "00001-24" } = false ↔
        ∃ c, ({ id := 2, code := some "00001-24" } : Project).code = some c ∧ c ≠ "" ∧
          ∃ p ∈ [({ id := 1, code := some "00001-24" } : Project)],
            p.code = some c ∧ p.id ≠ 2) :=
  ⟨project_code_constraints_amended.1 "0001-24" (by decide),
   project_code_constraints_amended.2.2.2 [{ id := 1, code := some "00001-24" }]
     { id := 2, code := some "00001-24" }⟩

/-! ## Claim C4 -/

/-- C4: the `Commessa` cleanup drops only the LAST dash-separated piece, not
a whole trailing `-NNNNNN-NN` suffix.  For the project code `00001-24`
carrying suffix `-000001-24`, the code searches for `00001-24-000001` and so
never finds the project — contradicting the source's own comment
("removing the suffix (e.g., \x22000001-24\x22 from
\x22PROJECT_NAME-000001-24\x22)") and the spec. -/
theorem activity_project_code_extraction_bug :
    extractProjectCode "00001-24-000001-24" = "00001-24-000001"
    ∧ extractProjectCode "00001-24-000001-24" ≠ "00001-24"
    ∧ resolveActivityProject
        { projects := [{ id := 7, name := "P", code := some "00001-24" }] }
        "00001-24-000001-24" = none
    ∧ extractProjectCode "PROJECT_NAME-000001-24" = "PROJECT_NAME-000001" := by
  decide

/-! ## Claim C1 -/

/-- C1 counterexample: with a task named `T` in project 7 already present,
the create-or-update helper for activities still reports `created` and adds
a second, duplicate record — its natural-key search is hardwired off. -/
theorem activity_upsert_duplicates_counterexample :
    (createOrUpdateActivity
        { tasks := [{ id := 1, name := "T", project_id := some 7 }], nextId := 2 }
        none { name := some "T", project_id := some 7 }).2.1 = Action.created
    ∧ (createOrUpdateActivity
        { tasks := [{ id := 1, name := "T", project_id := some 7 }], nextId := 2 }
        none { name := some "T", project_id := some 7 }).1.tasks.length = 2
    ∧ (List.filter (fun t => t.name == "T" && t.project_id == some 7)
        ([{ id := 1, name := "T", project_id := some 7 }] : List Task)).length = 1 := by
  decide

/-- C1 amended: the partner, project and stock-lot helpers do upsert — when a
record matching the natural-key domain (ref / code / name+product) exists
they report `updated` and create nothing — but the activity helper has its
search disabled (`existing_activity = False`, wizard.py:2017) and always
reports `created` with one more record, so re-importing duplicates
activities. -/
theorem upsert_update_on_existing_and_activity_always_creates :
    (∀ (hooks : Hooks) (env : Env) (d : PartnerData) (r : String),
        d.ref = some r →
        (∃ p ∈ env.partners, p.ref = some r) →
        (createOrUpdatePartner hooks env d).2.1 = Action.updated ∧
        (createOrUpdatePartner hooks env d).1.partners.length = env.partners.length)
    ∧ (∀ (env : Env) (u : Option Nat) (d : ProjectData) (c : String),
        d.code = some c → c ≠ "" →
        (∃ p ∈ env.projects, p.code = some c) →
        (createOrUpdateProject env u d).2.1 = Action.updated ∧
        (createOrUpdateProject env u d).1.projects.length = env.projects.length)
    ∧ (∀ (env : Env) (d : LotData),
        (∃ l ∈ env.lots, l.name = d.name.getD "" ∧ l.product_id = d.product_id.getD 0) →
        (createOrUpdateStockLot env d).2.1 = Action.updated ∧
        (createOrUpdateStockLot env d).1.lots.length = env.lots.length)
    ∧ (∀ (env : Env) (u : Option Nat) (d : TaskData),
        (createOrUpdateActivity env u d).2.1 = Action.created ∧
        (createOrUpdateActivity env u d).1.tasks.length = env.tasks.length + 1) := by
  refine ⟨?_, ?_, ?_, ?_⟩
  · intro hooks env d r hr hex
    have hfs : (env.partners.find? (fun p => p.ref == some r)).isSome := by
      rw [List.find?_isSome]
      obtain ⟨p, hp, he⟩ := hex
      exact ⟨p, hp, by simp [he]⟩
    obtain ⟨p, hfind⟩ := Option.isSome_iff_exists.mp hfs
    constructor <;> simp [createOrUpdatePartner, hr, hfind, List.length_map]
  · intro env u d c hc hcne hex
    have hb : (c != "") = true := by simpa using hcne
    have hfs : (env.projects.find? (fun p => p.code == some c)).isSome := by
      rw [List.find?_isSome]
      obtain ⟨p, hp, he⟩ := hex
      exact ⟨p, hp, by simp [he]⟩
    obtain ⟨p, hfind⟩ := Option.isSome_iff_exists.mp hfs
    constructor <;> simp [createOrUpdateProject, hc, hb, hfind, List.length_map]
  · intro env d hex
    have hfs : (env.lots.find? (fun l =>
        l.name == d.name.getD "" && l.product_id == d.product_id.getD 0)).isSome := by
      rw [List.find?_isSome]
      obtain ⟨l, hl, he1, he2⟩ := hex
      exact ⟨l, hl, by simp [he1, he2]⟩
    obtain ⟨l, hfind⟩ := Option.isSome_iff_exists.mp hfs
    constructor <;> simp [createOrUpdateStockLot, hfind, List.length_map]
  · intro env u d
    constructor
    · cases u <;> simp [createOrUpdateActivity]
    · cases u <;> simp [createOrUpdateActivity]

/-- Witness for C1: the amended statement applied at concrete records: an
existing partner (by ref), project (by code) and lot (by name+product) are
updated in place, while the activity helper creates a duplicate. -/
theorem upsert_update_witness :
    ((createOrUpdatePartner {}
        { partners := [{ id := 3, ref := some "C1", name := "A" }], nextId := 9 }
        { ref := some "C1", name := some "B" }).2.1 = Action.updated ∧
     (createOrUpdatePartner {}
        { partners := [{ id := 3, ref := some "C1", name := "A" }], nextId := 9 }
        { ref := some "C1", name := some "B" }).1.partners.length = 1)
    ∧ ((createOrUpdateProject
        { projects := [{ id := 4, name := "P", code := some "00002-25" }], nextId := 9 }
        none { name := some "P2", code := some "00002-25" }).2.1 = Action.updated ∧
      (createOrUpdateProject
        { projects := [{ id := 4, name := "P", code := some "00002-25" }], nextId := 9 }
        none { name := some "P2", code := some "00002-25" }).1.projects.length = 1)
    ∧ ((createOrUpdateStockLot
        { lots := [{ id := 5, name := "L1", product_id := 2 }], nextId := 9 }
        { name := some "L1", product_id := some 2 }).2.1 = Action.updated ∧
      (createOrUpdateStockLot
        { lots := [{ id := 5, name := "L1", product_id := 2 }], nextId := 9 }
        { name := some "L1", product_id := some 2 }).1.lots.length = 1)
    ∧ ((createOrUpdateActivity { nextId := 1 } none { name := some "T" }).2.1 = Action.created ∧
      (createOrUpdateActivity { nextId := 1 } none { name := some "T" }).1.tasks.length = 0 + 1) :=
  ⟨upsert_update_on_existing_and_activity_always_creates.1 {}
      { partners := [{ id := 3, ref := some "C1", name := "A" }], nextId := 9 }
      { ref := some "C1", name := some "B" } "C1" rfl (by decide),
   upsert_update_on_existing_and_activity_always_creates.2.1
      { projects := [{ id := 4, name := "P", code := some "00002-25" }], nextId := 9 }
      none { name := some "P2", code := some "00002-25" } "00002-25" rfl (by decide) (by decide),
   upsert_update_on_existing_and_activity_always_creates.2.2.1
      { lots := [{ id := 5, name := "L1", product_id := 2 }], nextId := 9 }
      { name := some "L1", product_id := some 2 } (by decide),
   upsert_update_on_existing_and_activity_always_creates.2.2.2
      { nextId := 1 } none { name := some "T" }⟩

/-! ## Loop lemmas for the partner import -/

/-- A row with a blank or missing `Codice` makes preparation raise the
validation error, whatever the database contains. -/
theorem preparePartnerData_blank_codice (env : Env) (row : Row)
    (h : rowVal row "Codice" = none) :
    preparePartnerData env row = .error "Codice is required" := by
  simp [preparePartnerData, h]

/-- Same, lifted to one loop iteration. -/
theorem processPartnerRow_blank_codice (hooks : Hooks) (env : Env) (row : Row)
    (h : rowVal row "Codice" = none) :
    processPartnerRow hooks env row = .error "Codice is required" := by
  simp [processPartnerRow, preparePartnerData_blank_codice env row h]

/-- The database outcome and the three counters do not depend on the row
number the loop starts from (row numbers only reach the error texts). -/
theorem partnerLoop_shift (hooks : Hooks) :
    ∀ (rows : List Row) (n m : Nat) (env : Env),
      (partnerLoop hooks n env rows).env = (partnerLoop hooks m env rows).env ∧
      (partnerLoop hooks n env rows).created = (partnerLoop hooks m env rows).created ∧
      (partnerLoop hooks n env rows).updated = (partnerLoop hooks m env rows).updated ∧
      (partnerLoop hooks n env rows).errors = (partnerLoop hooks m env rows).errors := by
  intro rows
  induction rows with
  | nil => intro n m env; exact ⟨rfl, rfl, rfl, rfl⟩
  | cons row rest ih =>
      intro n m env
      cases hp : processPartnerRow hooks env row with
      | ok res =>
          obtain ⟨env', act⟩ := res
          obtain ⟨h1, h2, h3, h4⟩ := ih (n + 1) (m + 1) env'
          cases act <;> simp [partnerLoop, hp, h1, h2, h3, h4]
      | error e =>
          obtain ⟨h1, h2, h3, h4⟩ := ih (n + 1) (m + 1) env
          simp [partnerLoop, hp, h1, h2, h3, h4]

/-- Inserting a blank-`Codice` row anywhere in the stream adds exactly one
to the error count and changes nothing else: no record is created for it and
the remaining rows import exactly as they would have. -/
theorem partnerLoop_insert_blank (hooks : Hooks) (bad : Row)
    (hbad : rowVal bad "Codice" = none) :
    ∀ (pre post : List Row) (n : Nat) (env : Env),
      (partnerLoop hooks n env (pre ++ bad :: post)).env =
        (partnerLoop hooks n env (pre ++ post)).env ∧
      (partnerLoop hooks n env (pre ++ bad :: post)).created =
        (partnerLoop hooks n env (pre ++ post)).created ∧
      (partnerLoop hooks n env (pre ++ bad :: post)).updated =
        (partnerLoop hooks n env (pre ++ post)).updated ∧
      (partnerLoop hooks n env (pre ++ bad :: post)).errors =
        (partnerLoop hooks n env (pre ++ post)).errors + 1 := by
  intro pre
  induction pre with
  | nil =>
      intro post n env
      have hb := processPartnerRow_blank_codice hooks env bad hbad
      obtain ⟨h1, h2, h3, h4⟩ := partnerLoop_shift hooks post (n + 1) n env
      simp [partnerLoop, hb, h1, h2, h3, h4]
  | cons r pre' ih =>
      intro post n env
      cases hp : processPartnerRow hooks env r with
      | ok res =>
          obtain ⟨env', act⟩ := res
          obtain ⟨h1, h2, h3, h4⟩ := ih post (n + 1) env'
          cases act <;> simp [partnerLoop, hp, h1, h2, h3, h4]
      | error e =>
          obtain ⟨h1, h2, h3, h4⟩ := ih post (n + 1) env
          simp [partnerLoop, hp, h1, h2, h3, h4]

/-! ## Claim C2 -/

/-- C2: a partner row whose required `Codice` is blank or missing raises the
row-level validation error, which the handler turns into exactly one more
counted error; the database ends up exactly as if the row were absent (so
nothing is created for it) and the other rows import unchanged. -/
theorem partner_blank_codice_row_counted_not_created (hooks : Hooks) (env : Env)
    (pre post : List Row) (bad : Row) (hbad : rowVal bad "Codice" = none) :
    (partnerLoop hooks 2 env (pre ++ bad :: post)).env =
      (partnerLoop hooks 2 env (pre ++ post)).env ∧
    (partnerLoop hooks 2 env (pre ++ bad :: post)).created =
      (partnerLoop hooks 2 env (pre ++ post)).created ∧
    (partnerLoop hooks 2 env (pre ++ bad :: post)).updated =
      (partnerLoop hooks 2 env (pre ++ post)).updated ∧
    (partnerLoop hooks 2 env (pre ++ bad :: post)).errors =
      (partnerLoop hooks 2 env (pre ++ post)).errors + 1 :=
  partnerLoop_insert_blank hooks bad hbad pre post 2 env

/-- Witness for C2: one blank-`Codice` row followed by a well-formed row;
the error is counted and the well-formed row still imports. -/
theorem partner_blank_codice_witness :
    (partnerLoop {} 2 { countries := [{ id := 1, code := "IT" }], nextId := 5 }
        ([] ++ [("Codice", ""), ("Nome Completo", "X")] ::
          [[("Codice", "C9"), ("Nome Completo", "Y")]])).errors =
      (partnerLoop {} 2 { countries := [{ id := 1, code := "IT" }], nextId := 5 }
        ([] ++ [[("Codice", "C9"), ("Nome Completo", "Y")]])).errors + 1 :=
  (partner_blank_codice_row_counted_not_created {}
      { countries := [{ id := 1, code := "IT" }], nextId := 5 }
      [] [[("Codice", "C9"), ("Nome Completo", "Y")]]
      [("Codice", ""), ("Nome Completo", "X")] (by decide)).2.2.2

/-! ## Claim C9 -/

/-- The blank-`Codice` error message of a row preceded by `pre` data rows
carries row number `n + pre.length` when the loop starts at `n`. -/
theorem partnerLoop_errmsg_number (hooks : Hooks) (bad : Row)
    (hbad : rowVal bad "Codice" = none) :
    ∀ (pre post : List Row) (n : Nat) (env : Env),
      mkPartnerErrMsg (n + pre.length) bad "Codice is required" ∈
        (partnerLoop hooks n env (pre ++ bad :: post)).errorMsgs := by
  intro pre
  induction pre with
  | nil =>
      intro post n env
      have hb := processPartnerRow_blank_codice hooks env bad hbad
      simp [partnerLoop, hb]
  | cons r pre' ih =>
      intro post n env
      have harith : n + 1 + pre'.length = n + (pre'.length + 1) := by omega
      cases hp : processPartnerRow hooks env r with
      | ok res =>
          obtain ⟨env', act⟩ := res
          have hmem := ih post (n + 1) env'
          rw [harith] at hmem
          cases act <;> simpa [partnerLoop, hp] using hmem
      | error e =>
          have hmem := ih post (n + 1) env
          rw [harith] at hmem
          simp [partnerLoop, hp]
          exact Or.inr hmem

/-- C9: the partner import ignores the has-header flag entirely — flipping it
changes nothing about the run — because the first CSV line is always consumed
as the header (the reader builds rows only from the later lines) and the data
rows are numbered from 2 regardless (the row preceded by `k` data rows is
reported as row `2 + k`). -/
theorem partner_import_header_flag_unused :
    (∀ (cfg : WizardConfig) (b : Bool) (hooks : Hooks)
        (decode : String → Bytes → Option String) (env : Env) (blob : Bytes),
        importPartners { cfg with has_header := b } hooks decode env blob =
          importPartners cfg hooks decode env blob)
    ∧ (∀ (d : Char) (content : String) (h : String) (rest : List String),
        csvLines content = h :: rest →
        dictReaderRows d content =
          rest.map (fun l => (splitLine d h).zip (splitLine d l)))
    ∧ (∀ (hooks : Hooks) (env : Env) (pre post : List Row) (bad : Row),
        rowVal bad "Codice" = none →
        mkPartnerErrMsg (2 + pre.length) bad "Codice is required" ∈
          (partnerLoop hooks 2 env (pre ++ bad :: post)).errorMsgs) := by
  refine ⟨?_, ?_, ?_⟩
  · intro cfg b hooks decode env blob
    rfl
  · intro d content h rest hlines
    simp [dictReaderRows, hlines]
  · intro hooks env pre post bad hbad
    exact partnerLoop_errmsg_number hooks bad hbad pre post 2 env

/-- Witness for C9: a concrete two-line file imports identically with the
flag set and cleared; its reader yields exactly the one data row; and a
blank-`Codice` row in first data position is reported as row 2. -/
theorem partner_import_header_flag_witness :
    (importPartners { has_header := true } {} (fun _ _ => some "h\nv") { nextId := 1 } [1] =
      importPartners { has_header := false } {} (fun _ _ => some "h\nv") { nextId := 1 } [1])
    ∧ dictReaderRows ',' "Codice\nC7" = [[("Codice", "C7")]]
    ∧ mkPartnerErrMsg (2 + 0) [("Codice", "")] "Codice is required" ∈
        (partnerLoop {} 2 { nextId := 1 } ([] ++ [("Codice", "")] :: [])).errorMsgs := by
  refine ⟨?_, ?_, ?_⟩
  · exact (partner_import_header_flag_unused.1 { has_header := false } true {}
      (fun _ _ => some "h\nv") { nextId := 1 } [1])
  · have := partner_import_header_flag_unused.2.1 ',' "Codice\nC7" "Codice" ["C7"] (by decide)
    rw [this]
    decide
  · have := partner_import_header_flag_unused.2.2 {} { nextId := 1 } [] [] [("Codice", "")]
      (by decide)
    simpa using this

/-! ## Claim C10 -/

/-- C10: whenever a country with code `IT` exists, every successfully
prepared partner row carries Italy as its country — the final assignment
overwrites whatever `NAZIONE` resolved to — while the province (`state_id`)
lookup is still filtered by the `NAZIONE`-resolved country, which is the only
place that value reaches. -/
theorem partner_country_forced_to_italy (env : Env) (row : Row) (it : Country)
    (hIT : env.countries.find? (fun c => c.code == "IT") = some it)
    (d : PartnerData) (h : preparePartnerData env row = .ok d) :
    d.country_id = some it.id ∧
    d.state_id =
      (match rowVal row "Prov." with
       | some v =>
           match (match rowVal row "NAZIONE" with
                  | some w =>
                      (env.countries.find? (fun (c : Country) => c.code == w)).map
                        (fun (c : Country) => c.id)
                  | none => (none : Option Nat)) with
           | some cid =>
               (env.states.find? (fun (s : CState) => s.code == v && s.country_id == cid)).map
                 (fun (s : CState) => s.id)
           | none =>
               (env.states.find? (fun (s : CState) => s.code == v)).map
                 (fun (s : CState) => s.id)
       | none => none) := by
  unfold preparePartnerData at h
  cases href : rowVal row "Codice" with
  | none =>
      rw [href] at h
      exact Except.noConfusion h
  | some r =>
      simp only [href] at h
      split at h
      · simp at h
      · simp only [Except.ok.injEq] at h
        subst h
        constructor
        · simp [hIT]
        · rfl

/-- Witness for C10: a row naming France in `NAZIONE` still comes out with
the Italian country id. -/
theorem partner_country_forced_to_italy_witness :
    ({ ref := some "C1", name := some "C1", country_id := some 9,
       is_company := some true, company_type := some "company" } : PartnerData).country_id
      = some 9 :=
  (partner_country_forced_to_italy
    { countries := [{ id := 3, code := "FR" }, { id := 9, code := "IT" }] }
    [("Codice", "C1"), ("NAZIONE", "FR")] { id := 9, code := "IT" } (by decide)
    { ref := some "C1", name := some "C1", country_id := some 9,
      is_company := some true, company_type := some "company" } rfl).1

/-! ## Claim C3 -/

/-- C3 counterexample: for the partner row with VAT `12.3` (normalizes to
`123`: too short), the partner is created — but no note whatsoever reaches
its comment, even with raw-SQL hooks that always fail: preparation deleted
the vat key, so `_update_partner_vat_cf_sql` receives `None` and its
note-appending path never runs. -/
theorem partner_invalid_vat_no_note_counterexample :
    vatAccepted "12.3" = false
    ∧ preparePartnerData { countries := [{ id := 1, code := "IT" }], nextId := 10 }
        [("Codice", "C1"), ("Nome Completo", "Acme"), ("Partita IVA", "12.3")] =
      .ok { ref := some "C1", name := some "Acme", country_id := some 1,
            is_company := some true, company_type := some "company" }
    ∧ (createOrUpdatePartner
        { sqlVat := fun _ => some "boom", sqlCf := fun _ => false }
        { countries := [{ id := 1, code := "IT" }], nextId := 10 }
        { ref := some "C1", name := some "Acme", country_id := some 1,
          is_company := some true, company_type := some "company" }).2.1 = Action.created
    ∧ (createOrUpdatePartner
        { sqlVat := fun _ => some "boom", sqlCf := fun _ => false }
        { countries := [{ id := 1, code := "IT" }], nextId := 10 }
        { ref := some "C1", name := some "Acme", country_id := some 1,
          is_company := some true, company_type := some "company" }).1.partners.map
        (fun p => p.comment) = [none]
    ∧ (createOrUpdatePartner
        { sqlVat := fun _ => some "boom", sqlCf := fun _ => false }
        { countries := [{ id := 1, code := "IT" }], nextId := 10 }
        { ref := some "C1", name := some "Acme", country_id := some 1,
          is_company := some true, company_type := some "company" }).1.partners.map
        (fun p => p.vat) = [none] :=
  ⟨by decide, rfl, rfl, rfl, rfl⟩

/-- C3 amended: a VAT failing normalization is deleted during row
preparation, so the partner is still created — never blocked — but without a
vat and with its comment exactly as prepared: no note is appended for such
values.  The privileged-SQL note path appends the Italian note precisely
when a vat that PASSED normalization makes the raw `UPDATE` raise. -/
theorem partner_invalid_vat_dropped_silently :
    (∀ (env : Env) (row : Row) (v : String) (d : PartnerData),
        rowVal row "Partita IVA" = some v → vatAccepted v = false →
        preparePartnerData env row = .ok d → d.vat = none)
    ∧ (∀ (hooks : Hooks) (env : Env) (d : PartnerData) (r : String),
        d.ref = some r →
        env.partners.find? (fun p => p.ref == some r) = none →
        d.vat = none → d.l10n_it_codice_fiscale = none →
        createOrUpdatePartner hooks env d =
          ({ env with partners := env.partners ++ [partnerFromData env.nextId d],
                      nextId := env.nextId + 1 },
           (Action.created, env.nextId)))
    ∧ (∀ (hooks : Hooks) (env : Env) (pid : Nat) (v err : String),
        hooks.sqlVat v = some err → v ≠ "" →
        updatePartnerVatCfSql hooks env pid (some v) none =
          mapPartner env pid (fun p =>
            { p with comment :=
                appendComment p.comment ("Partita IVA non valida: " ++ err ++ "\n") })) := by
  refine ⟨?_, ?_, ?_⟩
  · intro env row v d hv hbad h
    unfold preparePartnerData at h
    cases href : rowVal row "Codice" with
    | none =>
        rw [href] at h
        exact Except.noConfusion h
    | some r =>
        simp only [href] at h
        split at h
        · simp at h
        · simp only [Except.ok.injEq] at h
          subst h
          simp [hv, hbad]
  · intro hooks env d r hr hfind hv hc
    have hd : ({ d with vat := none, l10n_it_codice_fiscale := none } : PartnerData) = d := by
      cases d
      simp_all
    simp [createOrUpdatePartner, hd, hr, hfind, updatePartnerVatCfSql, hv, hc]
    refine ⟨?_, ?_⟩
    · rw [← hr]
      exact congrArg (partnerFromData env.nextId) hd
    · simp [partnerFromData, applyPartnerData]
  · intro hooks env pid v err hfail hv
    have hv' : (v == "") = false := by simpa using hv
    simp [updatePartnerVatCfSql, hv', hfail]

/-- Witness for C3: the amended statement applied to the concrete invalid
VAT `12.3`, to a concrete creating upsert, and to a concrete failing raw
`UPDATE` of the valid-shaped VAT `IT123456789`. -/
theorem partner_invalid_vat_dropped_witness :
    (({ ref := some "C1", name := some "Acme", country_id := some 1,
        is_company := some true, company_type := some "company" } : PartnerData).vat = none)
    ∧ createOrUpdatePartner {} { nextId := 4 } { ref := some "C2", name := some "B" } =
        ({ partners := [partnerFromData 4 { ref := some "C2", name := some "B" }],
           nextId := 5 }, (Action.created, 4))
    ∧ updatePartnerVatCfSql { sqlVat := fun _ => some "boom" }
        { partners := [{ id := 4, name := "B" }], nextId := 5 } 4
        (some "IT123456789") none =
      mapPartner { partners := [{ id := 4, name := "B" }], nextId := 5 } 4
        (fun p =>
          { p with comment :=
              appendComment p.comment ("Partita IVA non valida: " ++ "boom" ++ "\n") }) :=
  ⟨partner_invalid_vat_dropped_silently.1
      { countries := [{ id := 1, code := "IT" }], nextId := 10 }
      [("Codice", "C1"), ("Nome Completo", "Acme"), ("Partita IVA", "12.3")] "12.3"
      { ref := some "C1", name := some "Acme", country_id := some 1,
        is_company := some true, company_type := some "company" }
      (by decide) (by decide) rfl,
   partner_invalid_vat_dropped_silently.2.1 {} { nextId := 4 }
      { ref := some "C2", name := some "B" } "C2" rfl rfl rfl rfl,
   partner_invalid_vat_dropped_silently.2.2
      { sqlVat := fun _ => some "boom" }
      { partners := [{ id := 4, name := "B" }], nextId := 5 } 4 "IT123456789" "boom"
      rfl (by decide)⟩

/-! ## Claim C8 -/

/-- C8 counterexample: a partner row's `Num.tel.1` value is stored verbatim —
the prepared phone still contains the space and the dash, so the cleanup does
not happen on the partner-import path. -/
theorem partner_phone_not_cleaned_counterexample :
    preparePartnerData {} [("Codice", "C1"), ("Num.tel.1", "06 123-456")] =
      .ok { ref := some "C1", name := some "C1", phone := some "06 123-456",
            is_company := some true, company_type := some "company" }
    ∧ "06 123-456".data.contains ' ' = true
    ∧ "06 123-456".data.contains '-' = true :=
  ⟨rfl, by decide, by decide⟩

/-- C8 amended: the person import cleans both `mobile` and `phone` with the
space/dash/slash/parenthesis removal, while the partner import stores the
trimmed raw `Num.tel.1` and `Cell.` values with no character stripping. -/
theorem phone_cleanup_only_in_person_import :
    (∀ (env : Env) (row : Row) (e : Env) (d : PersonData),
        preparePersonData env row = .ok (e, d) →
        d.mobile = (rowVal row "Cellulare 1").map phoneClean ∧
        d.phone = (rowVal row "Telefono 1").map phoneClean)
    ∧ (∀ (env : Env) (row : Row) (d : PartnerData),
        preparePartnerData env row = .ok d →
        d.phone = rowVal row "Num.tel.1" ∧ d.mobile = rowVal row "Cell.")
    ∧ phoneClean "06 123-456/(78)" = "0612345678" := by
  refine ⟨?_, ?_, by decide⟩
  · intro env row e d h
    unfold preparePersonData at h
    cases href : rowVal row "Referenti" with
    | none =>
        rw [href] at h
        exact Except.noConfusion h
    | some nm =>
        simp only [href] at h
        split at h
        · simp at h
        · simp only [Except.ok.injEq, Prod.mk.injEq] at h
          obtain ⟨h1, h2⟩ := h
          subst h2
          exact ⟨rfl, rfl⟩
  · intro env row d h
    unfold preparePartnerData at h
    cases href : rowVal row "Codice" with
    | none =>
        rw [href] at h
        exact Except.noConfusion h
    | some r =>
        simp only [href] at h
        split at h
        · simp at h
        · simp only [Except.ok.injEq] at h
          subst h
          exact ⟨rfl, rfl⟩

/-- Witness for C8: the amended statement applied to a concrete person row
(cleaned) and a concrete partner row (stored raw). -/
theorem phone_cleanup_witness :
    (({ parent_id := none, parent_company_name := none, name := some "Mario",
        mobile := some "3331234567", comment := some "", is_company := some false,
        company_type := some "person" } : PersonData).mobile =
       (rowVal [("Referenti", "Mario"), ("Cellulare 1", "333 123-4567")] "Cellulare 1").map
         phoneClean)
    ∧ (({ ref := some "C1", name := some "C1", phone := some "06 123-456",
          is_company := some true, company_type := some "company" } : PartnerData).phone =
        rowVal [("Codice", "C1"), ("Num.tel.1", "06 123-456")] "Num.tel.1") :=
  ⟨(phone_cleanup_only_in_person_import.1 {}
      [("Referenti", "Mario"), ("Cellulare 1", "333 123-4567")] {}
      { parent_id := none, parent_company_name := none, name := some "Mario",
        mobile := some "3331234567", comment := some "", is_company := some false,
        company_type := some "person" } rfl).1,
   (phone_cleanup_only_in_person_import.2.1 {}
      [("Codice", "C1"), ("Num.tel.1", "06 123-456")]
      { ref := some "C1", name := some "C1", phone := some "06 123-456",
        is_company := some true, company_type := some "company" } rfl).1⟩

/-! ## Claim C7 -/

/-- C7: when the `Cliente` partner lookup of a project row, or the
`Azienda Locazione Macchina` partner lookup of a stock-lot row, finds no
match, preparation still succeeds (given its required fields) and simply
leaves the link field unset — the unresolved reference raises nothing. -/
theorem unresolved_company_reference_left_unset :
    (∀ (lib : PyLib) (env : Env) (row : Row) (v nm : String),
        rowVal row "Cliente" = some v →
        env.partners.find? (fun p => ilikeMatch p.name v) = none →
        rowVal row "Commessa" = some nm → (pyStrip nm == "") = false →
        ∃ e d, prepareProjectData lib env row = .ok (e, d) ∧ d.partner_id = none)
    ∧ (∀ (lib : PyLib) (env : Env) (row : Row) (v nm pc : String),
        rowVal row "Azienda Locazione Macchina" = some v →
        env.partners.find? (fun p => ilikeMatch p.name v) = none →
        rowVal row "Matricola Interna" = some nm → (pyStrip nm == "") = false →
        rowVal row "Codice prodotto" = some pc →
        ∃ e d, prepareStockLotData lib env row = .ok (e, d) ∧
          d.rental_company_id = none) := by
  constructor
  · intro lib env row v nm hcv hfind hnm hns
    unfold prepareProjectData
    simp only [hcv, hfind, hnm, hns, Option.map_none']
    exact ⟨_, _, rfl, rfl⟩
  · intro lib env row v nm pc hcv hfind hnm hns hpc
    unfold prepareStockLotData
    simp only [hcv, hfind, hnm, hns, hpc, Option.map_none', Option.isSome_some, Bool.true_or]
    cases hbc : env.products.find? (fun p => p.default_code == pc) with
    | some p =>
        simp only [hbc]
        exact ⟨_, _, rfl, rfl⟩
    | none =>
        simp only [hbc]
        cases hpn : rowVal row "Nome prodotto" with
        | none =>
            simp only [hpn]
            exact ⟨_, _, rfl, rfl⟩
        | some n =>
            simp only [hpn]
            cases hfn : env.products.find? (fun p => ilikeMatch p.name n) with
            | some q =>
                simp only [hfn]
                exact ⟨_, _, rfl, rfl⟩
            | none =>
                simp only [hfn]
                exact ⟨_, _, rfl, rfl⟩

/-- Witness for C7: a concrete project row with an unknown `Cliente` and a
concrete lot row with an unknown rental company both prepare successfully
with the link unset. -/
theorem unresolved_company_reference_witness :
    (∃ e d, prepareProjectData {} { nextId := 1 }
        [("Commessa", "P1"), ("Cliente", "Ghost Srl")] = .ok (e, d) ∧
      d.partner_id = none)
    ∧ (∃ e d, prepareStockLotData {} { nextId := 1 }
        [("Matricola Interna", "L1"), ("Azienda Locazione Macchina", "Ghost Srl"),
         ("Codice prodotto", "PC01")] = .ok (e, d) ∧
      d.rental_company_id = none) :=
  ⟨unresolved_company_reference_left_unset.1 {} { nextId := 1 }
      [("Commessa", "P1"), ("Cliente", "Ghost Srl")] "Ghost Srl" "P1"
      (by decide) (by decide) (by decide) (by decide),
   unresolved_company_reference_left_unset.2 {} { nextId := 1 }
      [("Matricola Interna", "L1"), ("Azienda Locazione Macchina", "Ghost Srl"),
       ("Codice prodotto", "PC01")] "Ghost Srl" "L1" "PC01"
      (by decide) (by decide) (by decide) (by decide) (by decide)⟩

end DBM
